import Mathlib

/-!
Verification development for the daily-selection and caching core of the
shulchan-aruch-yomi repository.  The embedding covers `src/models.py`,
`src/sefaria.py` and `src/selector.py`.

Modelling conventions:
* Python `random.Random` (Mersenne Twister) is an external library; a
  generator is modelled by its integer seed together with a draw counter,
  and the library's `_randbelow` output is an abstract function
  `R : seed -> counter -> n -> value`.  `random.randint` and
  `random.shuffle` are translated from their CPython definitions on top of
  `_randbelow`.
* `hashlib.sha256(...).hexdigest()` is an external library function,
  modelled by an abstract `sha256hex : String -> String`; the repository's
  own seed derivation (hex-prefix parsing) is translated faithfully.
* The network (`requests` inside `SefariaClient.get_text`) is an oracle
  mapping a call index and URL to an optional JSON payload; the call index
  advances by one per HTTP request, which serialises the two worker-pool
  fetches of `get_daily_pair` (one admissible schedule of the pool).
* The message-formatting layer (`src/formatter.py`) is outside the
  selection core (the spec treats formatting as an external collaborator);
  it enters the model as opaque pure functions `formatWelcome` and
  `formatDaily`.
* File system and in-process caches are explicit state: association lists
  keyed by strings, with the durable tier holding possibly-corrupt records.
-/

set_option maxRecDepth 10000

namespace SAY

/-! ## Data model (src/models.py) -/

/-- `Volume` dataclass from src/models.py. -/
structure Volume where
  volume : String
  volume_he : String
  ref_base : String
  max_siman : Nat
deriving DecidableEq, Repr

/-- `Halacha` dataclass from src/models.py (`seif : int | None`). -/
structure Halacha where
  volume : Volume
  siman : Nat
  seif : Option Nat
  hebrew_text : String
  sefaria_url : String
deriving DecidableEq, Repr

/-- `DailyPair` dataclass fields from src/models.py. -/
structure DailyPair where
  first : Halacha
  second : Halacha
  date_seed : String
deriving DecidableEq, Repr

/-- The Python exceptions that can escape the modelled code paths. -/
inductive PyError where
  /-- `ValueError` raised by `DailyPair.__post_init__`. -/
  | valueError
  /-- `RuntimeError("Failed to load volume catalog")` from `_select_two_volumes`. -/
  | runtimeError
  /-- `FileNotFoundError` (or other failure) from `SefariaClient._load_catalog`. -/
  | catalogError
deriving DecidableEq, Repr

/-- `DailyPair(...)` construction including `__post_init__` validation:
raises `ValueError` when the two halachot share a volume name. -/
def mkDailyPair (first second : Halacha) (date_seed : String) :
    Except PyError DailyPair :=
  if first.volume.volume = second.volume.volume then .error .valueError
  else .ok ⟨first, second, date_seed⟩

/-! ## Model of `random.Random` -/

/-- A `random.Random` instance: its integer seed plus how many core draws
(`_randbelow` calls) it has made so far. -/
structure PyRandom where
  seed : Nat
  ctr : Nat
deriving DecidableEq, Repr

section Model

-- Abstract Mersenne-Twister core: `R seed ctr n` is the value of the
-- `ctr`-th `_randbelow(n)` call of the generator seeded with `seed`.
variable (R : Nat → Nat → Nat → Nat)

/-- One `_randbelow(n)` call: produce a value and advance the counter. -/
def randbelowStep (g : PyRandom) (n : Nat) : Nat × PyRandom :=
  (R g.seed g.ctr n, ⟨g.seed, g.ctr + 1⟩)

/-- `random.randint(a, b)` = `a + _randbelow(b - a + 1)`. -/
def randint (g : PyRandom) (a b : Nat) : Nat × PyRandom :=
  let p := randbelowStep R g (b + 1 - a)
  (a + p.1, p.2)

/-- Swap positions `i` and `j` of a list (CPython `x[i], x[j] = x[j], x[i]`);
`d` is a default for out-of-range reads (never hit on in-range calls). -/
def listSwap (l : List α) (i j : Nat) (d : α) : List α :=
  (l.set i (l.getD j d)).set j (l.getD i d)

/-- The loop of `random.shuffle`: for `i` from `len-1` down to `1`,
`j := _randbelow(i + 1)`; swap `x[i]` and `x[j]`.  The `Nat` argument is
the current loop index. -/
def shuffleAux (d : α) : List α → PyRandom → Nat → List α × PyRandom
  | l, g, 0 => (l, g)
  | l, g, i + 1 =>
    let p := randbelowStep R g (i + 2)
    shuffleAux d (listSwap l (i + 1) p.1 d) p.2 i

/-- `random.shuffle` on a list. -/
def pyShuffle (d : α) (l : List α) (g : PyRandom) : List α × PyRandom :=
  shuffleAux R d l g (l.length - 1)

/-- Well-behavedness of the abstract core: `_randbelow(n) < n` for `n > 0`. -/
def RandOK : Prop := ∀ s c n, 0 < n → R s c n < n

/-! ## Seed derivation (selector.py `_get_daily_rng` and sub-seeds) -/

/-- Numeric value of a hex digit, as `int(..., 16)` sees it (characters
outside `[0-9a-fA-F]` never occur in a hex digest). -/
def hexVal (c : Char) : Nat :=
  if '0' ≤ c ∧ c ≤ '9' then c.toNat - '0'.toNat
  else if 'a' ≤ c ∧ c ≤ 'f' then 10 + (c.toNat - 'a'.toNat)
  else if 'A' ≤ c ∧ c ≤ 'F' then 10 + (c.toNat - 'A'.toNat)
  else 0

/-- `int(s, 16)` on a list of hex digits. -/
def parseHex (cs : List Char) : Nat :=
  cs.foldl (fun acc c => acc * 16 + hexVal c) 0

variable (sha256hex : String → String)

/-- `int(hashlib.sha256(s.encode()).hexdigest()[:16], 16)`. -/
def seedInt (s : String) : Nat :=
  parseHex ((sha256hex s).data.take 16)

/-- `HalachaSelector._get_daily_seed`: the ISO date string itself. -/
def getDailySeed (iso : String) : String := iso

/-- `HalachaSelector._get_daily_rng`: generator seeded from the date hash. -/
def getDailyRng (iso : String) : PyRandom :=
  ⟨seedInt sha256hex (getDailySeed iso), 0⟩

/-- The sub-seeded item generator for slot suffix `sfx` (`"-1"` / `"-2"`):
`random.Random(int(sha256(f"{iso}{sfx}").hexdigest()[:16], 16))`. -/
def subRng (iso sfx : String) : PyRandom :=
  ⟨seedInt sha256hex (iso ++ sfx), 0⟩

end Model

/-! ## Text cleaning (sefaria.py `_clean_text`) -/

/-- Python `\s` on the text handled here (ASCII whitespace). -/
def isPySpace (c : Char) : Bool :=
  c = ' ' || c = '\t' || c = '\n' || c = '\x0d' || c = '\x0b' || c = '\x0c'

/-- `re.sub(r"<[^>]+>", "", text)` with explicit fuel (the fuel is one more
than the remaining length, so it never runs out). -/
def stripTagsF : Nat → List Char → List Char
  | 0, _ => []
  | _, [] => []
  | fuel + 1, c :: rest =>
    if c = '<' then
      let body := rest.takeWhile (fun x => x ≠ '>')
      if body.length ≠ 0 ∧ body.length < rest.length then
        stripTagsF fuel (rest.drop (body.length + 1))
      else c :: stripTagsF fuel rest
    else c :: stripTagsF fuel rest

/-- Remove every `<[^>]+>` match. -/
def stripTags (cs : List Char) : List Char := stripTagsF (cs.length + 1) cs

/-- `re.sub(r"\s+", " ", text)`: collapse each whitespace run to one space.
The flag records whether we are inside a run. -/
def collapseWs : Bool → List Char → List Char
  | _, [] => []
  | inRun, c :: rest =>
    if isPySpace c then
      if inRun then collapseWs true rest else ' ' :: collapseWs true rest
    else c :: collapseWs false rest

/-- `str.strip()` (whitespace at both ends). -/
def stripEnds (cs : List Char) : List Char :=
  ((cs.dropWhile isPySpace).reverse.dropWhile isPySpace).reverse

/-- `SefariaClient._clean_text`. -/
def cleanText (s : String) : String :=
  if s = "" then ""
  else ⟨stripEnds (collapseWs false (stripTags s.data))⟩

/-! ## Sefaria client (sefaria.py) -/

def VOLUME_NAMES : List String :=
  ["Orach Chaim", "Yoreh De\x27ah", "Even HaEzer", "Choshen Mishpat"]

def BASE_URL : String := "https://www.sefaria.org/api"
def WEB_URL : String := "https://www.sefaria.org"

/-- The `"he"` entry of a Sefaria texts-API JSON payload: a string, a list
of strings, or absent. -/
inductive HeVal where
  | hstr (s : String)
  | hlist (l : List String)
  | habsent
deriving DecidableEq, Repr

/-- A successfully decoded JSON payload from the texts API (only the `"he"`
field is consumed by the modelled code). -/
structure TextData where
  he : HeVal
deriving DecidableEq, Repr

/-- The network: for each HTTP request index and URL, either a decoded
payload or a failure (`requests.RequestException`, handled in `get_text`). -/
structure Oracle where
  resp : Nat → String → Option TextData

/-- The client: its volume catalog property, which either yields the list
from `data/volumes.json` or raises (`FileNotFoundError` etc.). -/
structure Client where
  catalog : Except PyError (List Volume)

/-- `SefariaClient.get_volume`: linear scan of the catalog by English name
(accessing the catalog may raise the catalog-load error). -/
def getVolume (c : Client) (name : String) : Except PyError (Option Volume) :=
  c.catalog.map (fun vols => vols.find? (fun v => v.volume == name))

/-- `SefariaClient.get_text`: one HTTP request against the texts API.
The `Nat` component is the request counter (model of wall-clock call
order on the shared session). -/
def getText (o : Oracle) (os : Nat) (reference : String) :
    Option TextData × Nat :=
  (o.resp os (BASE_URL ++ "/texts/" ++ reference ++ "?context=0"), os + 1)

/-- `reference.replace(" ", "_")`. -/
def replaceSpaces (s : String) : String :=
  ⟨s.data.map (fun c => if c = ' ' then '_' else c)⟩

/-- `" ".join(str(p) for p in hebrew if p)`. -/
def joinHe (l : List String) : String :=
  String.intercalate " " (l.filter (fun p => p ≠ ""))

/-- Extraction of the Hebrew text from `data.get("he", "")`, including the
list-joining branch of `fetch_halacha`. -/
def extractHe : HeVal → String
  | .hstr s => s
  | .hlist l => joinHe l
  | .habsent => ""

/-- `SefariaClient.fetch_halacha`. -/
def fetchHalacha (o : Oracle) (os : Nat) (volume : Volume)
    (siman seif : Nat) : Option Halacha × Nat :=
  let reference :=
    volume.ref_base ++ "." ++ toString siman ++ "." ++ toString seif
  match getText o os reference with
  | (none, os1) => (none, os1)
  | (some data, os1) =>
    let hebrew := cleanText (extractHe data.he)
    if hebrew = "" ∨ hebrew.length < 10 then (none, os1)
    else
      (some { volume := volume, siman := siman, seif := some seif,
              hebrew_text := hebrew,
              sefaria_url := WEB_URL ++ "/" ++ replaceSpaces reference }, os1)

/-- `SefariaClient._get_seif_count`: fetch the full siman; `data.get("he", [])`
defaults to an empty list, so an absent field reports length 0, while a
string (non-list) value reports `None`. -/
def getSeifCount (o : Oracle) (os : Nat) (volume : Volume) (siman : Nat) :
    Option Nat × Nat :=
  let reference := volume.ref_base ++ "." ++ toString siman
  match getText o os reference with
  | (none, os1) => (none, os1)
  | (some data, os1) =>
    match data.he with
    | .hlist l => (some l.length, os1)
    | .habsent => (some 0, os1)
    | .hstr _ => (none, os1)

section Model2

variable (R : Nat → Nat → Nat → Nat)

/-- `SefariaClient.get_random_halacha_from_volume`: up to `fuel` attempts
(10 in the code); each attempt draws a siman from the provided generator,
discovers the seif count, draws a seif when possible, and falls back to
seif 1 before retrying. -/
def getRandomHalacha (o : Oracle) (vol : Volume) :
    Nat → Nat → PyRandom → Option Halacha × Nat × PyRandom
  | 0, os, g => (none, os, g)
  | fuel + 1, os, g =>
    let ps := randint R g 1 vol.max_siman
    let siman := ps.1
    let g1 := ps.2
    match getSeifCount o os vol siman with
    | (some cnt, os1) =>
      if 0 < cnt then
        let pf := randint R g1 1 cnt
        match fetchHalacha o os1 vol siman pf.1 with
        | (some h, os2) => (some h, os2, pf.2)
        | (none, os2) =>
          match fetchHalacha o os2 vol siman 1 with
          | (some h, os3) => (some h, os3, pf.2)
          | (none, os3) => getRandomHalacha o vol fuel os3 pf.2
      else
        match fetchHalacha o os1 vol siman 1 with
        | (some h, os2) => (some h, os2, g1)
        | (none, os2) => getRandomHalacha o vol fuel os2 g1
    | (none, os1) =>
      match fetchHalacha o os1 vol siman 1 with
      | (some h, os2) => (some h, os2, g1)
      | (none, os2) => getRandomHalacha o vol fuel os2 g1

/-- The fixed placeholder body of a fallback halacha. -/
def FALLBACK_TEXT : String :=
  "לא ניתן לטעון את הטקסט כרגע. לחץ על הקישור לקריאה בספריא."

/-- The marker substring `get_daily_pair` tests for (`fallback_marker`). -/
def FALLBACK_MARKER : String := "לא ניתן לטעון"

/-- Python substring search: does `needle` occur contiguously in the list? -/
def isSubSeq (needle : List Char) : List Char → Bool
  | [] => needle.isEmpty
  | c :: rest => needle.isPrefixOf (c :: rest) || isSubSeq needle rest

/-- Python `marker in text` (substring containment). -/
def containsMarker (s : String) : Bool :=
  isSubSeq FALLBACK_MARKER.data s.data

/-- `HalachaSelector._get_fallback_halacha`. -/
def getFallbackHalacha (volume : Volume) (g : PyRandom) :
    Halacha × PyRandom :=
  let p := randint R g 1 volume.max_siman
  ({ volume := volume, siman := p.1, seif := some 1,
     hebrew_text := FALLBACK_TEXT,
     sefaria_url := "https://www.sefaria.org/" ++
       replaceSpaces volume.ref_base ++ "." ++ toString p.1 }, p.2)

end Model2

/-! ## Cache state (selector.py module-level caches and the cache dir) -/

/-- String-keyed association map (insert-front with deduplication). -/
abbrev AList (β : Type) : Type := List (String × β)

def alookup (m : AList β) (k : String) : Option β :=
  (m.find? (fun p => p.1 == k)).map (·.2)

def aset (m : AList β) (k : String) (v : β) : AList β :=
  (k, v) :: m.filter (fun p => p.1 != k)

/-- A raw `"first"` / `"second"` subrecord of a durable snapshot as the
loader consumes it.  `none` at the outer layer models a missing key
(`KeyError`); `volume = some none` models `Volume(**...)` kwargs that do
not match the dataclass (`TypeError`). -/
structure RawHalacha where
  volume : Option (Option Volume)
  siman : Option Nat
  seif : Option (Option Nat)
  hebrew_text : Option String
  sefaria_url : Option String
deriving DecidableEq, Repr

/-- A decoded durable snapshot (`json.load` succeeded); each field is
`none` when the corresponding key is absent. -/
structure RawRecord where
  date_seed : Option String
  formatted_messages : Option (List String)
  first : Option RawHalacha
  second : Option RawHalacha
deriving DecidableEq, Repr

/-- Content of a durable cache file: undecodable JSON, or a record. -/
inductive CacheFile where
  | malformed
  | record (r : RawRecord)
deriving DecidableEq, Repr

/-- Rebuilding one `Halacha` from a raw subrecord; `none` exactly when the
Python loader would hit `KeyError`/`TypeError` on it. -/
def parseRawHalacha (r : RawHalacha) : Option Halacha :=
  match r.volume, r.siman, r.seif, r.hebrew_text, r.sefaria_url with
  | some (some v), some siman, some seif, some t, some u =>
    some ⟨v, siman, seif, t, u⟩
  | _, _, _, _, _ => none

/-- The mutable module state of selector.py: `_memory_cache`,
`_message_cache`, and the durable cache directory. -/
structure SelState where
  memory : AList DailyPair
  messages : AList (List String)
  files : AList CacheFile
deriving DecidableEq, Repr

def emptyState : SelState := ⟨[], [], []⟩

/-- `HalachaSelector._get_cache_path` (relative to `CACHE_DIR`). -/
def cachePath (iso : String) : String := "pair_" ++ iso ++ ".json"

/-- The serialized form of one halacha as `_save_cached_pair` writes it. -/
def rawOfHalacha (h : Halacha) : RawHalacha :=
  { volume := some (some h.volume), siman := some h.siman,
    seif := some h.seif, hebrew_text := some h.hebrew_text,
    sefaria_url := some h.sefaria_url }

/-- The full record `_save_cached_pair` writes. -/
def recordOfPair (pair : DailyPair) (msgs : List String) : RawRecord :=
  { date_seed := some pair.date_seed, formatted_messages := some msgs,
    first := some (rawOfHalacha pair.first),
    second := some (rawOfHalacha pair.second) }

section Selector

variable (R : Nat → Nat → Nat → Nat) (sha256hex : String → String)
variable (formatWelcome : String)
variable (formatDaily : DailyPair → String → List String)

/-- `HalachaSelector._load_cached_pair`.  Returns `.error` only when an
exception escapes (the `ValueError` of `DailyPair.__post_init__`, which is
not in the caught tuple); the caught `JSONDecodeError`/`KeyError`/
`TypeError` cases yield `.ok none` (cache miss). -/
def loadCachedPair (st : SelState) (iso : String) :
    Except PyError (Option DailyPair) × SelState :=
  match alookup st.memory iso with
  | some pair => (.ok (some pair), st)
  | none =>
    match alookup st.files (cachePath iso) with
    | none => (.ok none, st)
    | some .malformed => (.ok none, st)
    | some (.record r) =>
      match r.first.bind parseRawHalacha, r.second.bind parseRawHalacha,
            r.date_seed with
      | some first, some second, some ds =>
        match mkDailyPair first second ds with
        | .error e => (.error e, st)
        | .ok pair =>
          let msgs :=
            match r.formatted_messages with
            | some m => m
            | none => formatWelcome :: formatDaily pair iso
          (.ok (some pair),
           { st with memory := aset st.memory iso pair,
                     messages := aset st.messages iso msgs })
      | _, _, _ => (.ok none, st)

/-- `HalachaSelector._save_cached_pair`: pre-render the messages, store
them in the message cache, and write the durable snapshot. -/
def saveCachedPair (st : SelState) (pair : DailyPair) (iso : String) :
    SelState :=
  let msgs := formatWelcome :: formatDaily pair iso
  { st with messages := aset st.messages iso msgs,
            files := aset st.files (cachePath iso)
                       (.record (recordOfPair pair msgs)) }

/-- The cache-miss branch of `HalachaSelector.get_daily_pair`: seed the
generators, pick two volumes, fetch both slots (worker pool serialised as
slot 1 then slot 2), fall back where needed, validate, and cache. -/
def freshDailyPair (client : Client) (o : Oracle) (st : SelState)
    (os : Nat) (iso : String) : Except PyError DailyPair × SelState × Nat :=
  let g0 := getDailyRng sha256hex iso
  let sh := pyShuffle R "" VOLUME_NAMES g0
  let names := sh.1
  let g := sh.2
  match getVolume client (names.getD 0 "") with
  | .error e => (.error e, st, os)
  | .ok v1? =>
    match getVolume client (names.getD 1 "") with
    | .error e => (.error e, st, os)
    | .ok v2? =>
      match v1?, v2? with
      | some vol1, some vol2 =>
        let r1 := getRandomHalacha R o vol1 10 os (subRng sha256hex iso "-1")
        let r2 := getRandomHalacha R o vol2 10 r1.2.1 (subRng sha256hex iso "-2")
        let os2 := r2.2.1
        let fb1 :=
          match r1.1 with
          | some h => (h, g)
          | none => getFallbackHalacha R vol1 g
        let fb2 :=
          match r2.1 with
          | some h => (h, fb1.2)
          | none => getFallbackHalacha R vol2 fb1.2
        match mkDailyPair fb1.1 fb2.1 (getDailySeed iso) with
        | .error e => (.error e, st, os2)
        | .ok pair =>
          let st1 :=
            if !containsMarker fb1.1.hebrew_text &&
               !containsMarker fb2.1.hebrew_text then
              saveCachedPair formatWelcome formatDaily st pair iso
            else st
          (.ok pair, { st1 with memory := aset st1.memory iso pair }, os2)
      | _, _ => (.error .runtimeError, st, os)

/-- `HalachaSelector.get_daily_pair` for an explicit date. -/
def getDailyPair (client : Client) (o : Oracle) (st : SelState)
    (os : Nat) (iso : String) : Except PyError DailyPair × SelState × Nat :=
  match loadCachedPair formatWelcome formatDaily st iso with
  | (.error e, st1) => (.error e, st1, os)
  | (.ok (some p), st1) => (.ok p, st1, os)
  | (.ok none, st1) =>
    freshDailyPair R sha256hex formatWelcome formatDaily client o st1 os iso

/-- `HalachaSelector.get_cached_messages`. -/
def getCachedMessages (st : SelState) (iso : String) :
    Except PyError (Option (List String)) × SelState :=
  match alookup st.messages iso with
  | some m => (.ok (some m), st)
  | none =>
    match loadCachedPair formatWelcome formatDaily st iso with
    | (.error e, st1) => (.error e, st1)
    | (.ok _, st1) =>
      match alookup st1.messages iso with
      | some m => (.ok (some m), st1)
      | none => (.ok none, st1)

end Selector

/-! ## Environment assumptions usable as hypotheses -/

section Hypotheses

variable (R : Nat → Nat → Nat → Nat)

/-- A reliable Content Source: every request succeeds, responses depend
only on the URL (not on when the request is made), and the payload is a
non-empty segment list whose joined, cleaned text passes the length gate
of `fetch_halacha`. -/
def Reliable (o : Oracle) : Prop :=
  ∀ n url, o.resp n url = o.resp 0 url ∧
    ∃ l, o.resp 0 url = some ⟨.hlist l⟩ ∧ 0 < l.length ∧
      10 ≤ (cleanText (joinHe l)).length

/-- A Content Source whose (cleaned) texts never contain the fallback
placeholder marker, so marker containment identifies fallback units. -/
def CleanOracle (o : Oracle) : Prop :=
  ∀ n url d, o.resp n url = some d →
    containsMarker (cleanText (extractHe d.he)) = false

/-- The catalog loads and resolves every volume name of `VOLUME_NAMES`. -/
def GoodCatalog (client : Client) : Prop :=
  ∃ vols, client.catalog = .ok vols ∧
    ∀ n ∈ VOLUME_NAMES, (vols.find? (fun v => v.volume == n)).isSome

end Hypotheses

/-! ## Helper lemmas -/

theorem alookup_aset_self (m : AList β) (k : String) (v : β) :
    alookup (aset m k v) k = some v := by
  simp [alookup, aset, List.find?]

theorem alookup_aset_ne (m : AList β) (k k' : String) (v : β)
    (h : k' ≠ k) : alookup (aset m k v) k' = alookup m k' := by
  have hk : (k == k') = false := by
    simp [BEq.beq]
    exact fun hh => (h hh.symm).elim
  simp only [alookup, aset, List.find?, hk]
  congr 1
  induction m with
  | nil => rfl
  | cons p rest ih =>
    by_cases hp : p.1 = k
    · have h1 : (p.1 != k) = false := by simp [hp]
      have h2 : (p.1 == k') = false := by
        simp [hp]
        exact fun hh => (h hh.symm).elim
      simp [List.filter, List.find?, h1, h2, ih]
    · have h1 : (p.1 != k) = true := by simp [hp]
      simp only [List.filter, h1]
      cases hfind : (p.1 == k') with
      | true => simp [List.find?, hfind]
      | false => simp [List.find?, hfind, ih]

theorem marker_in_fallback_text : containsMarker FALLBACK_TEXT = true := by
  decide

/-- `fetch_halacha` only builds halachot for the requested volume, and its
text is cleaned oracle text (hence marker-free for a clean oracle). -/
theorem fetchHalacha_shape {o os vol siman seif h os1}
    (hf : fetchHalacha o os vol siman seif = (some h, os1)) :
    h.volume = vol ∧ h.siman = siman ∧ h.seif = some seif ∧
      ∃ d, o.resp os (BASE_URL ++ "/texts/" ++
        (vol.ref_base ++ "." ++ toString siman ++ "." ++ toString seif) ++
        "?context=0") = some d ∧
        h.hebrew_text = cleanText (extractHe d.he) := by
  unfold fetchHalacha at hf
  dsimp only at hf
  split at hf
  · simp at hf
  · next data os2 heq =>
    split at hf
    · simp at hf
    · simp only [Prod.mk.injEq, Option.some.injEq] at hf
      obtain ⟨h1, _⟩ := hf
      subst h1
      refine ⟨rfl, rfl, rfl, data, ?_, rfl⟩
      have : (o.resp os (BASE_URL ++ "/texts/" ++
          (vol.ref_base ++ "." ++ toString siman ++ "." ++ toString seif) ++
          "?context=0"), os + 1) = (some data, os2) := heq
      exact (Prod.mk.injEq _ _ _ _ ▸ this).1

/-- Marker-freeness of successfully fetched halachot. -/
theorem fetchHalacha_clean {o os vol siman seif h os1}
    (hclean : CleanOracle o)
    (hf : fetchHalacha o os vol siman seif = (some h, os1)) :
    containsMarker h.hebrew_text = false := by
  obtain ⟨-, -, -, d, hd, ht⟩ := fetchHalacha_shape hf
  rw [ht]
  exact hclean _ _ _ hd

/-- `get_random_halacha_from_volume` returns halachot of the requested
volume, with marker-free text when the oracle is clean. -/
theorem getRandomHalacha_spec {R o vol h os' g'}
    (hclean : CleanOracle o) :
    ∀ {fuel os g}, getRandomHalacha R o vol fuel os g = (some h, os', g') →
      h.volume = vol ∧ containsMarker h.hebrew_text = false := by
  intro fuel
  induction fuel with
  | zero => intro os g hh; simp [getRandomHalacha] at hh
  | succ n ih =>
    intro os g hh
    unfold getRandomHalacha at hh
    dsimp only at hh
    split at hh
    · next cnt os1 heq =>
      split at hh
      · split at hh
        · next h2 os2 heq2 =>
          simp only [Prod.mk.injEq, Option.some.injEq] at hh
          obtain ⟨h1, -⟩ := hh
          subst h1
          exact ⟨(fetchHalacha_shape heq2).1, fetchHalacha_clean hclean heq2⟩
        · split at hh
          · next h2 os3 heq3 =>
            simp only [Prod.mk.injEq, Option.some.injEq] at hh
            obtain ⟨h1, -⟩ := hh
            subst h1
            exact ⟨(fetchHalacha_shape heq3).1, fetchHalacha_clean hclean heq3⟩
          · exact ih hh
      · split at hh
        · next h2 os2 heq2 =>
          simp only [Prod.mk.injEq, Option.some.injEq] at hh
          obtain ⟨h1, -⟩ := hh
          subst h1
          exact ⟨(fetchHalacha_shape heq2).1, fetchHalacha_clean hclean heq2⟩
        · exact ih hh
    · split at hh
      · next h2 os2 heq2 =>
        simp only [Prod.mk.injEq, Option.some.injEq] at hh
        obtain ⟨h1, -⟩ := hh
        subst h1
        exact ⟨(fetchHalacha_shape heq2).1, fetchHalacha_clean hclean heq2⟩
      · exact ih hh

/-- Unfolding of `rng.shuffle` on the four volume names: three
`_randbelow` draws and three swaps. -/
theorem pyShuffle_names_expand (R : Nat → Nat → Nat → Nat) (s : Nat) :
    pyShuffle R "" VOLUME_NAMES ⟨s, 0⟩ =
      (listSwap (listSwap (listSwap VOLUME_NAMES 3 (R s 0 4) "")
        2 (R s 1 3) "") 1 (R s 2 2) "", ⟨s, 3⟩) := rfl

/-- With an in-range `_randbelow`, the shuffled list's first two entries
are distinct volume names from the catalog list. -/
theorem pyShuffle_names_spec (R : Nat → Nat → Nat → Nat) (hR : RandOK R)
    (s : Nat) :
    (pyShuffle R "" VOLUME_NAMES ⟨s, 0⟩).2 = ⟨s, 3⟩ ∧
    (pyShuffle R "" VOLUME_NAMES ⟨s, 0⟩).1.getD 0 "" ≠
      (pyShuffle R "" VOLUME_NAMES ⟨s, 0⟩).1.getD 1 "" ∧
    (pyShuffle R "" VOLUME_NAMES ⟨s, 0⟩).1.getD 0 "" ∈ VOLUME_NAMES ∧
    (pyShuffle R "" VOLUME_NAMES ⟨s, 0⟩).1.getD 1 "" ∈ VOLUME_NAMES := by
  rw [pyShuffle_names_expand]
  have h3 : R s 0 4 < 4 := hR s 0 4 (by omega)
  have h2 : R s 1 3 < 3 := hR s 1 3 (by omega)
  have h1 : R s 2 2 < 2 := hR s 2 2 (by omega)
  set a := R s 0 4 with ha
  set b := R s 1 3 with hb
  set c := R s 2 2 with hc
  clear_value a b c
  interval_cases a <;> interval_cases b <;> interval_cases c <;>
    simp [VOLUME_NAMES, listSwap]

/-- `get_volume` resolves names to volumes carrying exactly that name. -/
theorem getVolume_name {client : Client} {name : String} {v : Volume}
    (h : getVolume client name = .ok (some v)) : v.volume = name := by
  unfold getVolume at h
  cases hc : client.catalog with
  | error e => rw [hc] at h; simp [Except.map] at h
  | ok vols =>
    rw [hc] at h
    simp only [Except.map, Except.ok.injEq] at h
    have := List.find?_some h
    simpa using this

/-- A good catalog resolves each of the four names. -/
theorem goodCatalog_resolves {client : Client} (hcat : GoodCatalog client)
    {name : String} (hmem : name ∈ VOLUME_NAMES) :
    ∃ v, getVolume client name = .ok (some v) ∧ v.volume = name := by
  obtain ⟨vols, hok, hall⟩ := hcat
  have hsome := hall name hmem
  cases hfind : vols.find? (fun v => v.volume == name) with
  | none => rw [hfind] at hsome; simp at hsome
  | some v =>
    refine ⟨v, ?_, ?_⟩
    · unfold getVolume
      rw [hok]
      simp [Except.map, hfind]
    · have := List.find?_some hfind
      simpa using this

/-- For a reliable oracle, `_get_seif_count` succeeds with a positive
count that does not depend on the request counter. -/
theorem getSeifCount_reliable {o : Oracle} (hrel : Reliable o)
    (vol : Volume) (siman : Nat) :
    ∃ cnt, 0 < cnt ∧ ∀ os, getSeifCount o os vol siman = (some cnt, os + 1) := by
  obtain ⟨l, hresp, hlen, -⟩ := (hrel 0 (BASE_URL ++ "/texts/" ++
    (vol.ref_base ++ "." ++ toString siman) ++ "?context=0")).2
  refine ⟨l.length, hlen, fun os => ?_⟩
  have hos := (hrel os (BASE_URL ++ "/texts/" ++
    (vol.ref_base ++ "." ++ toString siman) ++ "?context=0")).1
  simp only [getSeifCount, getText]
  rw [hos, hresp]

/-- For a reliable oracle, `fetch_halacha` succeeds and its result does
not depend on the request counter. -/
theorem fetchHalacha_reliable {o : Oracle} (hrel : Reliable o)
    (vol : Volume) (siman seif : Nat) :
    ∃ h, h.volume = vol ∧ h.siman = siman ∧ h.seif = some seif ∧
      ∀ os, fetchHalacha o os vol siman seif = (some h, os + 1) := by
  obtain ⟨l, hresp, -, hlen⟩ := (hrel 0 (BASE_URL ++ "/texts/" ++
    (vol.ref_base ++ "." ++ toString siman ++ "." ++ toString seif) ++
    "?context=0")).2
  have hne : ¬(cleanText (joinHe l) = "" ∨ (cleanText (joinHe l)).length < 10) := by
    rintro (h0 | h0)
    · rw [h0] at hlen; simp [String.length] at hlen
    · omega
  refine ⟨{ volume := vol, siman := siman, seif := some seif,
            hebrew_text := cleanText (joinHe l),
            sefaria_url := WEB_URL ++ "/" ++ replaceSpaces (vol.ref_base ++
              "." ++ toString siman ++ "." ++ toString seif) },
    rfl, rfl, rfl, fun os => ?_⟩
  have hos := (hrel os (BASE_URL ++ "/texts/" ++
    (vol.ref_base ++ "." ++ toString siman ++ "." ++ toString seif) ++
    "?context=0")).1
  simp only [fetchHalacha, getText]
  rw [hos, hresp]
  simp only [extractHe]
  rw [if_neg hne]

/-- For a reliable oracle, the first attempt of
`get_random_halacha_from_volume` succeeds: two requests, and a result
independent of the request counter. -/
theorem getRandomHalacha_reliable {R : Nat → Nat → Nat → Nat} {o : Oracle}
    (hrel : Reliable o) (vol : Volume) (g : PyRandom) :
    ∃ h g', h.volume = vol ∧
      ∀ os, getRandomHalacha R o vol 10 os g = (some h, os + 2, g') := by
  obtain ⟨cnt, hpos, hsc⟩ :=
    getSeifCount_reliable hrel vol (randint R g 1 vol.max_siman).1
  obtain ⟨h, hv, -, -, hf⟩ := fetchHalacha_reliable hrel vol
    (randint R g 1 vol.max_siman).1
    (randint R (randint R g 1 vol.max_siman).2 1 cnt).1
  refine ⟨h, (randint R (randint R g 1 vol.max_siman).2 1 cnt).2, hv,
    fun os => ?_⟩
  show getRandomHalacha R o vol (9 + 1) os g = _
  unfold getRandomHalacha
  dsimp only
  rw [hsc os]
  dsimp only
  rw [if_pos hpos, hf (os + 1)]


/-- `get_random_halacha_from_volume` returns halachot of the requested
volume (no oracle assumption needed). -/
theorem getRandomHalacha_volume {R o vol h os' g'} :
    ∀ {fuel os g}, getRandomHalacha R o vol fuel os g = (some h, os', g') →
      h.volume = vol := by
  intro fuel
  induction fuel with
  | zero => intro os g hh; simp [getRandomHalacha] at hh
  | succ n ih =>
    intro os g hh
    unfold getRandomHalacha at hh
    dsimp only at hh
    split at hh
    · split at hh
      · split at hh
        · next h2 os2 heq2 =>
          simp only [Prod.mk.injEq, Option.some.injEq] at hh
          obtain ⟨h1, -⟩ := hh
          subst h1
          exact (fetchHalacha_shape heq2).1
        · split at hh
          · next h2 os3 heq3 =>
            simp only [Prod.mk.injEq, Option.some.injEq] at hh
            obtain ⟨h1, -⟩ := hh
            subst h1
            exact (fetchHalacha_shape heq3).1
          · exact ih hh
      · split at hh
        · next h2 os2 heq2 =>
          simp only [Prod.mk.injEq, Option.some.injEq] at hh
          obtain ⟨h1, -⟩ := hh
          subst h1
          exact (fetchHalacha_shape heq2).1
        · exact ih hh
    · split at hh
      · next h2 os2 heq2 =>
        simp only [Prod.mk.injEq, Option.some.injEq] at hh
        obtain ⟨h1, -⟩ := hh
        subst h1
        exact (fetchHalacha_shape heq2).1
      · exact ih hh

/-- Full unfolding of the fresh-computation branch of `get_daily_pair`
once the two volumes resolve and carry distinct names (so the
`DailyPair` construction cannot raise). -/
theorem freshDailyPair_run {R : Nat → Nat → Nat → Nat}
    {sha : String → String} {fw : String}
    {fd : DailyPair → String → List String} {client : Client} {o : Oracle}
    {st : SelState} {os : Nat} {iso : String} {vol1 vol2 : Volume}
    (h1 : getVolume client
      ((pyShuffle R "" VOLUME_NAMES (getDailyRng sha iso)).1.getD 0 "") =
      .ok (some vol1))
    (h2 : getVolume client
      ((pyShuffle R "" VOLUME_NAMES (getDailyRng sha iso)).1.getD 1 "") =
      .ok (some vol2))
    (hne : vol1.volume ≠ vol2.volume) :
    freshDailyPair R sha fw fd client o st os iso =
      (let g := (pyShuffle R "" VOLUME_NAMES (getDailyRng sha iso)).2
       let r1 := getRandomHalacha R o vol1 10 os (subRng sha iso "-1")
       let r2 := getRandomHalacha R o vol2 10 r1.2.1 (subRng sha iso "-2")
       let fb1 := match r1.1 with
         | some h => (h, g)
         | none => getFallbackHalacha R vol1 g
       let fb2 := match r2.1 with
         | some h => (h, fb1.2)
         | none => getFallbackHalacha R vol2 fb1.2
       let pair : DailyPair := ⟨fb1.1, fb2.1, iso⟩
       let st1 := if !containsMarker fb1.1.hebrew_text &&
                     !containsMarker fb2.1.hebrew_text
                  then saveCachedPair fw fd st pair iso else st
       (.ok pair, { st1 with memory := aset st1.memory iso pair }, r2.2.1)) := by
  unfold freshDailyPair
  dsimp only
  rw [h1, h2]
  dsimp only
  cases hr1 : (getRandomHalacha R o vol1 10 os (subRng sha iso "-1")) with
  | mk o1 rest1 =>
  cases rest1 with
  | mk osr1 gr1 =>
  cases hr2 : (getRandomHalacha R o vol2 10 osr1 (subRng sha iso "-2")) with
  | mk o2 rest2 =>
  cases rest2 with
  | mk osr2 gr2 =>
  have hv1 : ∀ hh, o1 = some hh → hh.volume = vol1 := by
    intro hh he; subst he; exact getRandomHalacha_volume hr1
  have hv2 : ∀ hh, o2 = some hh → hh.volume = vol2 := by
    intro hh he; subst he; exact getRandomHalacha_volume hr2
  cases o1 with
  | none =>
    cases o2 with
    | none =>
      simp only [mkDailyPair, getDailySeed]
      rw [if_neg (by exact hne)]
    | some hh2 =>
      have := hv2 hh2 rfl
      simp only [mkDailyPair, getDailySeed]
      rw [if_neg (by rw [this]; exact hne)]
  | some hh1 =>
    have e1 := hv1 hh1 rfl
    cases o2 with
    | none =>
      simp only [mkDailyPair, getDailySeed]
      rw [if_neg (by rw [e1]; exact hne)]
    | some hh2 =>
      have e2 := hv2 hh2 rfl
      simp only [mkDailyPair, getDailySeed]
      rw [if_neg (by rw [e1, e2]; exact hne)]

/-- Serialisation then parsing of one halacha is the identity. -/
theorem parseRaw_roundtrip (h : Halacha) :
    parseRawHalacha (rawOfHalacha h) = some h := rfl

/-- Inversion for a successful `DailyPair` construction. -/
theorem mkDailyPair_ok {a b : Halacha} {d : String} {p : DailyPair}
    (h : mkDailyPair a b d = .ok p) :
    p = ⟨a, b, d⟩ ∧ a.volume.volume ≠ b.volume.volume := by
  unfold mkDailyPair at h
  split at h
  · exact nomatch h
  · next hne => exact ⟨(Except.ok.inj h).symm, hne⟩

/-- Whenever the fresh-computation branch succeeds, the new state is
determined by the returned pair: the durable and message tiers are written
exactly when the pair passes the marker check, and the memory tier always
receives the pair. -/
theorem freshDailyPair_state {R : Nat → Nat → Nat → Nat}
    {sha : String → String} {fw : String}
    {fd : DailyPair → String → List String} {client : Client} {o : Oracle}
    {st : SelState} {os : Nat} {iso : String} {pair : DailyPair}
    {st' : SelState} {os' : Nat}
    (hrun : freshDailyPair R sha fw fd client o st os iso =
      (.ok pair, st', os')) :
    st' = { (if !containsMarker pair.first.hebrew_text &&
             !containsMarker pair.second.hebrew_text then
               saveCachedPair fw fd st pair iso else st) with
            memory := aset (if !containsMarker pair.first.hebrew_text &&
              !containsMarker pair.second.hebrew_text then
                saveCachedPair fw fd st pair iso else st).memory iso pair } ∧
    pair.date_seed = getDailySeed iso := by
  unfold freshDailyPair at hrun
  dsimp only at hrun
  split at hrun
  · exact nomatch hrun
  · split at hrun
    · exact nomatch hrun
    · split at hrun
      · split at hrun
        · exact nomatch hrun
        · next pair0 hmk =>
          obtain ⟨hp0, -⟩ := mkDailyPair_ok hmk
          subst hp0
          simp only [Prod.mk.injEq, Except.ok.injEq] at hrun
          obtain ⟨e1, e2, e3⟩ := hrun
          subst e1
          exact ⟨e2.symm, rfl⟩
      · exact nomatch hrun

/-! ## Concrete instantiations used by witnesses and counterexamples -/

/-- A simple in-range `_randbelow` model. -/
def R0 : Nat → Nat → Nat → Nat := fun s c n => if n = 0 then 0 else (s + c) % n

theorem R0_ok : RandOK R0 := by
  intro s c n h
  have hn : n ≠ 0 := Nat.pos_iff_ne_zero.mp h
  simp only [R0, if_neg hn]
  exact Nat.mod_lt _ h

def iso0 : String := "2026-02-16"

/-- A digest function distinguishing the three seed strings of `iso0`. -/
def sha0 : String → String := fun s =>
  if s = iso0 then "1" else if s = iso0 ++ "-1" then "2"
  else if s = iso0 ++ "-2" then "3" else "0"

def fw0 : String := "W"

def fd0 : DailyPair → String → List String := fun _ _ => ["M"]

def vols0 : List Volume :=
  [⟨"Orach Chaim", "א", "Shulchan Arukh, Orach Chayim", 697⟩,
   ⟨"Yoreh De\x27ah", "ב", "Shulchan Arukh, Yoreh Deah", 403⟩,
   ⟨"Even HaEzer", "ג", "Shulchan Arukh, Even HaEzer", 178⟩,
   ⟨"Choshen Mishpat", "ד", "Shulchan Arukh, Choshen Mishpat", 427⟩]

def client0 : Client := ⟨.ok vols0⟩

def goodText : TextData := ⟨.hlist ["abcdefghijkl"]⟩

/-- An always-succeeding source. -/
def oracleGood : Oracle := ⟨fun _ _ => some goodText⟩

/-- An always-failing source. -/
def oracleFail : Oracle := ⟨fun _ _ => none⟩

/-- A source that fails the first 40 requests and then recovers. -/
def oracleFlip : Oracle := ⟨fun n _ => if n < 40 then none else some goodText⟩

theorem goodCatalog0 : GoodCatalog client0 := ⟨vols0, rfl, by decide⟩

theorem reliable0 : Reliable oracleGood := by
  intro n url
  exact ⟨rfl, ["abcdefghijkl"], rfl, by decide, by decide⟩

theorem clean0 : CleanOracle oracleGood := by
  intro n url d h
  injection h with h
  subst h
  decide

def halX : Halacha :=
  ⟨⟨"Orach Chaim", "א", "Shulchan Arukh, Orach Chayim", 697⟩, 1, some 1,
   "text one", "url one"⟩

def halY : Halacha :=
  ⟨⟨"Choshen Mishpat", "ד", "Shulchan Arukh, Choshen Mishpat", 427⟩, 2, none,
   "text two", "url two"⟩

/-! ## Claims -/

/-- C1: constructing a `DailyPair` whose two halachot share a volume fails
at construction with `ValueError`, for every category/locator combination;
construction succeeds only when the volumes differ; and the failure
condition is exactly equality of the two volume names. -/
theorem C1_construction_validation (f s : Halacha) (d : String) :
    (f.volume = s.volume → mkDailyPair f s d = .error .valueError) ∧
    (∀ p, mkDailyPair f s d = .ok p → f.volume ≠ s.volume) ∧
    (mkDailyPair f s d = .error .valueError ↔
      f.volume.volume = s.volume.volume) := by
  unfold mkDailyPair
  by_cases h : f.volume.volume = s.volume.volume
  · rw [if_pos h]
    refine ⟨fun _ => rfl, fun p hp => ?_,
      Iff.intro (fun _ => h) (fun _ => rfl)⟩
    exact nomatch hp
  · rw [if_neg h]
    refine ⟨fun he => absurd (congrArg Volume.volume he) h,
      fun p hp he => h (congrArg Volume.volume he),
      Iff.intro (fun he => nomatch he) (fun hh => absurd hh h)⟩

theorem C1_construction_validation_witness :
    mkDailyPair halX { halX with siman := 3 } "2026-02-16" =
      .error .valueError ∧
    halX.volume ≠ halY.volume :=
  ⟨(C1_construction_validation halX { halX with siman := 3 } "2026-02-16").1
     rfl,
   (C1_construction_validation halX halY "2026-02-16").2.1
     ⟨halX, halY, "2026-02-16"⟩ rfl⟩

/-- The durable snapshot fails to parse: undecodable JSON, or a record
with a missing/mistyped field among those the loader reads. -/
def ParseFails : CacheFile → Prop
  | .malformed => True
  | .record r => r.first.bind parseRawHalacha = none ∨
      r.second.bind parseRawHalacha = none ∨ r.date_seed = none

/-- C6: an unparsable durable snapshot is treated as a cache miss — the
loader returns `None` without raising, and `get_daily_pair` falls through
to fresh computation. -/
theorem C6_corrupt_snapshot_is_miss
    (R : Nat → Nat → Nat → Nat) (sha : String → String) (fw : String)
    (fd : DailyPair → String → List String) (client : Client) (o : Oracle)
    {st : SelState} {iso : String} {f : CacheFile} (os : Nat)
    (hmem : alookup st.memory iso = none)
    (hfile : alookup st.files (cachePath iso) = some f)
    (hbad : ParseFails f) :
    loadCachedPair fw fd st iso = (.ok none, st) ∧
    getDailyPair R sha fw fd client o st os iso =
      freshDailyPair R sha fw fd client o st os iso := by
  have hload : loadCachedPair fw fd st iso = (.ok none, st) := by
    unfold loadCachedPair
    rw [hmem]
    dsimp only
    rw [hfile]
    cases f with
    | malformed => rfl
    | record r =>
      obtain ⟨ds, fm, fst, snd⟩ := r
      simp only [ParseFails] at hbad
      dsimp only
      cases e1 : fst.bind parseRawHalacha with
      | none => rfl
      | some a =>
        cases e2 : snd.bind parseRawHalacha with
        | none => rfl
        | some b =>
          cases e3 : ds with
          | none => rfl
          | some d =>
            exfalso
            rcases hbad with h | h | h <;> simp_all
  exact ⟨hload, by unfold getDailyPair; rw [hload]⟩

def stCorrupt : SelState := ⟨[], [], [(cachePath iso0, .malformed)]⟩

theorem C6_corrupt_snapshot_is_miss_witness :
    loadCachedPair fw0 fd0 stCorrupt iso0 = (.ok none, stCorrupt) ∧
    getDailyPair R0 sha0 fw0 fd0 client0 oracleGood stCorrupt 0 iso0 =
      freshDailyPair R0 sha0 fw0 fd0 client0 oracleGood stCorrupt 0 iso0 :=
  C6_corrupt_snapshot_is_miss R0 sha0 fw0 fd0 client0 oracleGood 0 rfl rfl
    trivial

/-- C8: saving a date's snapshot and loading it in a fresh session yields
the very pairing that was saved (all fields equal), promotes it into the
session memory tier, and a subsequent lookup in that session returns it
from memory regardless of what the durable tier now holds. -/
theorem C8_durable_roundtrip_promotes {fw : String}
    {fd : DailyPair → String → List String} (st : SelState)
    (pair : DailyPair) (iso : String)
    (hvalid : pair.first.volume.volume ≠ pair.second.volume.volume) :
    ∃ st2,
      loadCachedPair fw fd ⟨[], [], (saveCachedPair fw fd st pair iso).files⟩
          iso = (.ok (some pair), st2) ∧
      alookup st2.memory iso = some pair ∧
      alookup st2.messages iso = some (fw :: fd pair iso) ∧
      (∀ files', loadCachedPair fw fd { st2 with files := files' } iso =
        (.ok (some pair), { st2 with files := files' })) := by
  refine ⟨⟨aset [] iso pair, aset [] iso (fw :: fd pair iso),
    (saveCachedPair fw fd st pair iso).files⟩, ?_, ?_, ?_, ?_⟩
  · unfold loadCachedPair saveCachedPair
    dsimp only
    rw [alookup_aset_self]
    dsimp only [recordOfPair, parseRaw_roundtrip, Option.bind]
    simp only [mkDailyPair, if_neg hvalid]
    rfl
  · exact alookup_aset_self _ _ _
  · exact alookup_aset_self _ _ _
  · intro files'
    unfold loadCachedPair
    dsimp only
    rw [alookup_aset_self]

/-- The catalog entry named "Orach Chaim". -/
def vOC : Volume := ⟨"Orach Chaim", "א", "Shulchan Arukh, Orach Chayim", 697⟩

/-- The catalog entry named "Choshen Mishpat". -/
def vCM : Volume :=
  ⟨"Choshen Mishpat", "ד", "Shulchan Arukh, Choshen Mishpat", 427⟩

/-- The pairing produced on `iso0` when every request fails: both slots
are fallback units (locators 5 and 6). -/
def pairFail : DailyPair :=
  ⟨⟨⟨"Orach Chaim", "א", "Shulchan Arukh, Orach Chayim", 697⟩, 5, some 1,
    FALLBACK_TEXT, "https://www.sefaria.org/Shulchan_Arukh,_Orach_Chayim.5"⟩,
   ⟨⟨"Choshen Mishpat", "ד", "Shulchan Arukh, Choshen Mishpat", 427⟩, 6,
    some 1, FALLBACK_TEXT,
    "https://www.sefaria.org/Shulchan_Arukh,_Choshen_Mishpat.6"⟩,
   iso0⟩

/-- The session state after that failing run: the fallback pairing sits in
the memory tier; messages and durable tier are untouched. -/
def stFail : SelState := ⟨[(iso0, pairFail)], [], []⟩

/-- The pairing a fresh computation on `iso0` yields once the source has
recovered (requests from index 40 on succeed). -/
def pairGood : DailyPair :=
  ⟨⟨⟨"Orach Chaim", "א", "Shulchan Arukh, Orach Chayim", 697⟩, 3, some 1,
    "abcdefghijkl",
    "https://www.sefaria.org/Shulchan_Arukh,_Orach_Chayim.3.1"⟩,
   ⟨⟨"Choshen Mishpat", "ד", "Shulchan Arukh, Choshen Mishpat", 427⟩, 4,
    some 1, "abcdefghijkl",
    "https://www.sefaria.org/Shulchan_Arukh,_Choshen_Mishpat.4.1"⟩,
   iso0⟩

/-- C10: after a fresh computation whose result contains a fallback unit,
the message cache stays empty for that date: the pairing query keeps
returning the memory-cached pairing while the pre-rendered message query
returns null, and neither call changes the state, so it stays null for the
rest of the session. -/
theorem C10_fallback_starves_message_cache
    {R : Nat → Nat → Nat → Nat} {sha : String → String} {fw : String}
    {fd : DailyPair → String → List String} {client : Client} {o : Oracle}
    {st : SelState} {os : Nat} {iso : String} {pair : DailyPair}
    {st' : SelState} {os' : Nat}
    (hmem : alookup st.memory iso = none)
    (hmsg : alookup st.messages iso = none)
    (hfile : alookup st.files (cachePath iso) = none)
    (hrun : getDailyPair R sha fw fd client o st os iso =
      (.ok pair, st', os'))
    (hmark : (containsMarker pair.first.hebrew_text ||
              containsMarker pair.second.hebrew_text) = true) :
    alookup st'.memory iso = some pair ∧
    alookup st'.messages iso = none ∧
    getCachedMessages fw fd st' iso = (.ok none, st') ∧
    getDailyPair R sha fw fd client o st' os' iso = (.ok pair, st', os') := by
  have hload : loadCachedPair fw fd st iso = (.ok none, st) := by
    unfold loadCachedPair
    rw [hmem]
    dsimp only
    rw [hfile]
  rw [show getDailyPair R sha fw fd client o st os iso =
      freshDailyPair R sha fw fd client o st os iso from by
    unfold getDailyPair; rw [hload]] at hrun
  obtain ⟨hst, -⟩ := freshDailyPair_state hrun
  have hcond : (!containsMarker pair.first.hebrew_text &&
      !containsMarker pair.second.hebrew_text) = false := by
    simp only [Bool.or_eq_true] at hmark
    rcases hmark with h | h <;> simp [h]
  rw [hcond] at hst
  rw [if_neg (by simp : ¬((false : Bool) = true))] at hst
  subst hst
  refine ⟨alookup_aset_self _ _ _, hmsg, ?_, ?_⟩
  · unfold getCachedMessages
    dsimp only
    rw [hmsg]
    unfold loadCachedPair
    dsimp only
    rw [alookup_aset_self]
    dsimp only
    rw [hmsg]
  · unfold getDailyPair loadCachedPair
    dsimp only
    rw [alookup_aset_self]

theorem C10_fallback_starves_message_cache_witness :
    alookup stFail.memory iso0 = some pairFail ∧
    alookup stFail.messages iso0 = none ∧
    getCachedMessages fw0 fd0 stFail iso0 = (.ok none, stFail) ∧
    getDailyPair R0 sha0 fw0 fd0 client0 oracleFail stFail 40 iso0 =
      (.ok pairFail, stFail, 40) :=
  @C10_fallback_starves_message_cache R0 sha0 fw0 fd0 client0 oracleFail
    emptyState 0 iso0 pairFail stFail 40 rfl rfl rfl rfl rfl

/-- C3 (amended): a pairing is recomputed only when the memory tier has no
entry for the date and the durable tier has no entry; any memory-tier
entry — fallback or not — suppresses recomputation for the rest of the
session.  Fallback-containing pairings are kept out of the durable tier
only, so a later session with a fresh memory tier does recompute. -/
theorem C3_recomputation_policy (R : Nat → Nat → Nat → Nat)
    (sha : String → String) (fw : String)
    (fd : DailyPair → String → List String) (client : Client) (o : Oracle)
    (iso : String) :
    (∀ st os p, alookup st.memory iso = some p →
      getDailyPair R sha fw fd client o st os iso = (.ok p, st, os)) ∧
    (∀ st os pair st' os', alookup st.memory iso = none →
      alookup st.files (cachePath iso) = none →
      getDailyPair R sha fw fd client o st os iso = (.ok pair, st', os') →
      (containsMarker pair.first.hebrew_text ||
        containsMarker pair.second.hebrew_text) = true →
      st'.files = st.files ∧
      ∀ os2, getDailyPair R sha fw fd client o ⟨[], [], st'.files⟩ os2 iso =
        freshDailyPair R sha fw fd client o ⟨[], [], st'.files⟩ os2 iso) := by
  constructor
  · intro st os p hp
    unfold getDailyPair loadCachedPair
    rw [hp]
  · intro st os pair st' os' hmem hfile hrun hmark
    have hload : loadCachedPair fw fd st iso = (.ok none, st) := by
      unfold loadCachedPair
      rw [hmem]
      dsimp only
      rw [hfile]
    rw [show getDailyPair R sha fw fd client o st os iso =
        freshDailyPair R sha fw fd client o st os iso from by
      unfold getDailyPair; rw [hload]] at hrun
    obtain ⟨hst, -⟩ := freshDailyPair_state hrun
    have hcond : (!containsMarker pair.first.hebrew_text &&
        !containsMarker pair.second.hebrew_text) = false := by
      simp only [Bool.or_eq_true] at hmark
      rcases hmark with h | h <;> simp [h]
    rw [hcond] at hst
    rw [if_neg (by simp : ¬((false : Bool) = true))] at hst
    subst hst
    refine ⟨rfl, fun os2 => ?_⟩
    have hload2 : loadCachedPair fw fd
        ⟨[], [], ({ st with memory := aset st.memory iso pair } :
          SelState).files⟩ iso =
        (.ok none, ⟨[], [], ({ st with memory := aset st.memory iso pair } :
          SelState).files⟩) := by
      unfold loadCachedPair
      dsimp only
      rw [show alookup ([] : AList DailyPair) iso = none from rfl]
      dsimp only
      rw [hfile]
    unfold getDailyPair
    rw [hload2]

theorem C3_recomputation_policy_witness :
    getDailyPair R0 sha0 fw0 fd0 client0 oracleFlip stFail 40 iso0 =
      (.ok pairFail, stFail, 40) ∧
    stFail.files = emptyState.files ∧
    (∀ os2, getDailyPair R0 sha0 fw0 fd0 client0 oracleFlip
        ⟨[], [], stFail.files⟩ os2 iso0 =
      freshDailyPair R0 sha0 fw0 fd0 client0 oracleFlip
        ⟨[], [], stFail.files⟩ os2 iso0) :=
  ⟨(C3_recomputation_policy R0 sha0 fw0 fd0 client0 oracleFlip iso0).1
     stFail 40 pairFail rfl,
   ((C3_recomputation_policy R0 sha0 fw0 fd0 client0 oracleFlip iso0).2
     emptyState 0 pairFail stFail 40 rfl rfl rfl rfl).1,
   ((C3_recomputation_policy R0 sha0 fw0 fd0 client0 oracleFlip iso0).2
     emptyState 0 pairFail stFail 40 rfl rfl rfl rfl).2⟩

/-- C3 counterexample: with a source that fails the first 40 requests and
then recovers, the first run caches a fallback-containing pairing in the
session memory tier; a later call in the same session returns that very
pairing with the request counter unchanged (no recomputation), even though
a recomputation would now produce a valid, marker-free pairing. -/
theorem C3_counterexample :
    getDailyPair R0 sha0 fw0 fd0 client0 oracleFlip emptyState 0 iso0 =
      (.ok pairFail, stFail, 40) ∧
    containsMarker pairFail.first.hebrew_text = true ∧
    getDailyPair R0 sha0 fw0 fd0 client0 oracleFlip stFail 40 iso0 =
      (.ok pairFail, stFail, 40) ∧
    (freshDailyPair R0 sha0 fw0 fd0 client0 oracleFlip emptyState 40
      iso0).1 = .ok pairGood ∧
    containsMarker pairGood.first.hebrew_text = false ∧
    containsMarker pairGood.second.hebrew_text = false ∧
    pairGood ≠ pairFail :=
  ⟨rfl, rfl, rfl, rfl, rfl, rfl, by decide⟩

theorem C8_durable_roundtrip_promotes_witness :
    ∃ st2,
      loadCachedPair fw0 fd0
          ⟨[], [], (saveCachedPair fw0 fd0 emptyState ⟨halX, halY, iso0⟩
            iso0).files⟩ iso0 = (.ok (some ⟨halX, halY, iso0⟩), st2) ∧
      alookup st2.memory iso0 = some ⟨halX, halY, iso0⟩ ∧
      alookup st2.messages iso0 =
        some (fw0 :: fd0 ⟨halX, halY, iso0⟩ iso0) ∧
      (∀ files', loadCachedPair fw0 fd0 { st2 with files := files' } iso0 =
        (.ok (some ⟨halX, halY, iso0⟩), { st2 with files := files' })) :=
  C8_durable_roundtrip_promotes emptyState ⟨halX, halY, iso0⟩ iso0 (by decide)

/-- C5: after a fresh computation, the durable snapshot for the date is
written if and only if neither slot fetch exhausted its attempts (no slot
fell back); when either slot fell back, the durable tier entry for that
date is untouched.  A clean oracle ties the marker test in the code to
fallback production. -/
theorem C5_durable_write_policy
    {R : Nat → Nat → Nat → Nat} {sha : String → String} {fw : String}
    {fd : DailyPair → String → List String} {client : Client} {o : Oracle}
    {st : SelState} {os : Nat} {iso : String} {vol1 vol2 : Volume}
    (hclean : CleanOracle o)
    (hmiss : loadCachedPair fw fd st iso = (.ok none, st))
    (h1 : getVolume client
      ((pyShuffle R "" VOLUME_NAMES (getDailyRng sha iso)).1.getD 0 "") =
      .ok (some vol1))
    (h2 : getVolume client
      ((pyShuffle R "" VOLUME_NAMES (getDailyRng sha iso)).1.getD 1 "") =
      .ok (some vol2))
    (hne : vol1.volume ≠ vol2.volume) :
    ∃ pair st' os',
      getDailyPair R sha fw fd client o st os iso = (.ok pair, st', os') ∧
      (((getRandomHalacha R o vol1 10 os (subRng sha iso "-1")).1.isSome ∧
        (getRandomHalacha R o vol2 10
          (getRandomHalacha R o vol1 10 os (subRng sha iso "-1")).2.1
          (subRng sha iso "-2")).1.isSome) →
        st'.files = aset st.files (cachePath iso)
          (.record (recordOfPair pair (fw :: fd pair iso)))) ∧
      (¬((getRandomHalacha R o vol1 10 os (subRng sha iso "-1")).1.isSome ∧
        (getRandomHalacha R o vol2 10
          (getRandomHalacha R o vol1 10 os (subRng sha iso "-1")).2.1
          (subRng sha iso "-2")).1.isSome) →
        st'.files = st.files) := by
  rw [show getDailyPair R sha fw fd client o st os iso =
      freshDailyPair R sha fw fd client o st os iso from by
    unfold getDailyPair; rw [hmiss]]
  rw [freshDailyPair_run h1 h2 hne]
  dsimp only
  cases hr1 : getRandomHalacha R o vol1 10 os (subRng sha iso "-1") with
  | mk o1 rest1 =>
  cases rest1 with
  | mk osr1 gr1 =>
  cases hr2 : getRandomHalacha R o vol2 10 osr1 (subRng sha iso "-2") with
  | mk o2 rest2 =>
  cases rest2 with
  | mk osr2 gr2 =>
  cases o1 with
  | some ha =>
    have hma := (getRandomHalacha_spec hclean hr1).2
    cases o2 with
    | some hb =>
      have hmb := (getRandomHalacha_spec hclean hr2).2
      rw [hma, hmb]
      dsimp only
      refine ⟨_, _, _, rfl, fun _ => rfl, fun hc => ?_⟩
      exact absurd ⟨rfl, rfl⟩ hc
    | none =>
      rw [hma, show containsMarker (getFallbackHalacha R vol2
        (pyShuffle R "" VOLUME_NAMES (getDailyRng sha iso)).2).1.hebrew_text
        = true from marker_in_fallback_text]
      dsimp only
      refine ⟨_, _, _, rfl, fun hc => ?_, fun _ => rfl⟩
      simp at hc
  | none =>
    rw [show containsMarker (getFallbackHalacha R vol1
      (pyShuffle R "" VOLUME_NAMES (getDailyRng sha iso)).2).1.hebrew_text
      = true from marker_in_fallback_text]
    dsimp only
    refine ⟨_, _, _, rfl, fun hc => ?_, fun _ => rfl⟩
    simp at hc

theorem C5_durable_write_policy_witness :
    ∃ pair st' os',
      getDailyPair R0 sha0 fw0 fd0 client0 oracleGood emptyState 0 iso0 =
        (.ok pair, st', os') ∧
      (((getRandomHalacha R0 oracleGood vOC 10 0
          (subRng sha0 iso0 "-1")).1.isSome ∧
        (getRandomHalacha R0 oracleGood vCM 10
          (getRandomHalacha R0 oracleGood vOC 10 0
            (subRng sha0 iso0 "-1")).2.1
          (subRng sha0 iso0 "-2")).1.isSome) →
        st'.files = aset emptyState.files (cachePath iso0)
          (.record (recordOfPair pair (fw0 :: fd0 pair iso0)))) ∧
      (¬((getRandomHalacha R0 oracleGood vOC 10 0
          (subRng sha0 iso0 "-1")).1.isSome ∧
        (getRandomHalacha R0 oracleGood vCM 10
          (getRandomHalacha R0 oracleGood vOC 10 0
            (subRng sha0 iso0 "-1")).2.1
          (subRng sha0 iso0 "-2")).1.isSome) →
        st'.files = emptyState.files) :=
  C5_durable_write_policy clean0 rfl rfl rfl (by decide)

/-- C2: with a reliable Content Source, two independent calls (fresh
session states, consecutive request counters) of the daily selection for
the same date return pairings with identical volumes in the same slots and
identical locators — in fact the very same pairing. -/
theorem C2_determinism
    {R : Nat → Nat → Nat → Nat} {sha : String → String} {fw : String}
    {fd : DailyPair → String → List String} {client : Client} {o : Oracle}
    (hR : RandOK R) (hcat : GoodCatalog client) (hrel : Reliable o)
    (iso : String) (os : Nat) :
    ∃ p1 st1 os1 p2 st2 os2,
      getDailyPair R sha fw fd client o emptyState os iso =
        (.ok p1, st1, os1) ∧
      getDailyPair R sha fw fd client o emptyState os1 iso =
        (.ok p2, st2, os2) ∧
      p1.first.volume = p2.first.volume ∧
      p1.second.volume = p2.second.volume ∧
      p1.first.siman = p2.first.siman ∧
      p1.second.siman = p2.second.siman ∧
      p1.first.seif = p2.first.seif ∧
      p1.second.seif = p2.second.seif ∧
      p1 = p2 := by
  obtain ⟨-, hne01, hm0, hm1⟩ :=
    pyShuffle_names_spec R hR (seedInt sha (getDailySeed iso))
  obtain ⟨vol1, hv1, hn1⟩ := goodCatalog_resolves hcat hm0
  obtain ⟨vol2, hv2, hn2⟩ := goodCatalog_resolves hcat hm1
  have hne : vol1.volume ≠ vol2.volume := by rw [hn1, hn2]; exact hne01
  obtain ⟨h1st, g1x, -, hrun1⟩ :=
    getRandomHalacha_reliable (R := R) hrel vol1 (subRng sha iso "-1")
  obtain ⟨h2nd, g2x, -, hrun2⟩ :=
    getRandomHalacha_reliable (R := R) hrel vol2 (subRng sha iso "-2")
  have key : ∀ osx : Nat, ∃ stx,
      getDailyPair R sha fw fd client o emptyState osx iso =
        (.ok ⟨h1st, h2nd, getDailySeed iso⟩, stx, osx + 2 + 2) := by
    intro osx
    rw [show getDailyPair R sha fw fd client o emptyState osx iso =
        freshDailyPair R sha fw fd client o emptyState osx iso from by
      unfold getDailyPair
      rw [show loadCachedPair fw fd emptyState iso = (.ok none, emptyState)
        from rfl]]
    rw [freshDailyPair_run hv1 hv2 hne]
    dsimp only
    rw [hrun1 osx]
    dsimp only
    rw [hrun2 (osx + 2)]
    dsimp only
    exact ⟨_, rfl⟩
  obtain ⟨st1, e1⟩ := key os
  obtain ⟨st2, e2⟩ := key (os + 2 + 2)
  exact ⟨_, _, _, _, _, _, e1, e2, rfl, rfl, rfl, rfl, rfl, rfl, rfl⟩

theorem C2_determinism_witness :
    ∃ p1 st1 os1 p2 st2 os2,
      getDailyPair R0 sha0 fw0 fd0 client0 oracleGood emptyState 0 iso0 =
        (.ok p1, st1, os1) ∧
      getDailyPair R0 sha0 fw0 fd0 client0 oracleGood emptyState os1 iso0 =
        (.ok p2, st2, os2) ∧
      p1.first.volume = p2.first.volume ∧
      p1.second.volume = p2.second.volume ∧
      p1.first.siman = p2.first.siman ∧
      p1.second.siman = p2.second.siman ∧
      p1.first.seif = p2.first.seif ∧
      p1.second.seif = p2.second.seif ∧
      p1 = p2 :=
  C2_determinism R0_ok goodCatalog0 reliable0 iso0 0

/-! ## Hex-prefix seed bounds -/

theorem char_toNat_le {a b : Char} (h : a ≤ b) : a.toNat ≤ b.toNat := by
  simp only [Char.le_def] at h
  exact h

theorem hexVal_lt (c : Char) : hexVal c < 16 := by
  unfold hexVal
  split
  · next h =>
    have := char_toNat_le h.2
    have h9 : ('9' : Char).toNat = 57 := rfl
    have h0 : ('0' : Char).toNat = 48 := rfl
    omega
  · split
    · next h =>
      have := char_toNat_le h.2
      have hf : ('f' : Char).toNat = 102 := rfl
      have ha : ('a' : Char).toNat = 97 := rfl
      omega
    · split
      · next h =>
        have := char_toNat_le h.2
        have hF : ('F' : Char).toNat = 70 := rfl
        have hA : ('A' : Char).toNat = 65 := rfl
        omega
      · omega

theorem parseHex_aux (cs : List Char) : ∀ acc : Nat,
    cs.foldl (fun a c => a * 16 + hexVal c) acc < (acc + 1) * 16 ^ cs.length := by
  induction cs with
  | nil => intro acc; simp
  | cons c rest ih =>
    intro acc
    have h1 := ih (acc * 16 + hexVal c)
    have h2 : hexVal c < 16 := hexVal_lt c
    have h3 : (acc * 16 + hexVal c + 1) * 16 ^ rest.length ≤
        (acc + 1) * 16 ^ (rest.length + 1) := by
      rw [pow_succ]
      have : acc * 16 + hexVal c + 1 ≤ (acc + 1) * 16 := by omega
      calc (acc * 16 + hexVal c + 1) * 16 ^ rest.length
          ≤ ((acc + 1) * 16) * 16 ^ rest.length :=
            Nat.mul_le_mul_right _ this
        _ = (acc + 1) * (16 ^ rest.length * 16) := by ring
    calc (c :: rest).foldl (fun a c => a * 16 + hexVal c) acc
        = rest.foldl (fun a c => a * 16 + hexVal c) (acc * 16 + hexVal c) := rfl
      _ < (acc * 16 + hexVal c + 1) * 16 ^ rest.length := h1
      _ ≤ (acc + 1) * 16 ^ (rest.length + 1) := h3
      _ = (acc + 1) * 16 ^ (c :: rest).length := by rw [List.length_cons]

theorem seedInt_lt (sha : String → String) (s : String) :
    seedInt sha s < 2 ^ 64 := by
  unfold seedInt parseHex
  have h1 := parseHex_aux ((sha s).data.take 16) 0
  simp only [Nat.zero_add, Nat.one_mul] at h1
  have h2 : ((sha s).data.take 16).length ≤ 16 := by
    simp [List.length_take]
  calc ((sha s).data.take 16).foldl (fun a c => a * 16 + hexVal c) 0
      < 16 ^ ((sha s).data.take 16).length := h1
    _ ≤ 16 ^ 16 := Nat.pow_le_pow_right (by omega) h2
    _ = 2 ^ 64 := by norm_num

/-- C9: the date seed is a 64-bit integer — the parse of the 16-hex-char
prefix of the digest is below 2^64 for every digest function — and the
selection pipeline consults the digest only at the three strings
`iso`, `iso ++ "-1"` and `iso ++ "-2"`: the category generator is seeded
from the date hash and the two item generators from the two suffixed
hashes, independently. -/
theorem C9_seed_derivation :
    (∀ (sha : String → String) (s : String), seedInt sha s < 2 ^ 64) ∧
    (∀ (R : Nat → Nat → Nat → Nat) (sha sha' : String → String)
       (fw : String) (fd : DailyPair → String → List String)
       (client : Client) (o : Oracle) (st : SelState) (os : Nat)
       (iso : String),
      sha iso = sha' iso →
      sha (iso ++ "-1") = sha' (iso ++ "-1") →
      sha (iso ++ "-2") = sha' (iso ++ "-2") →
      freshDailyPair R sha fw fd client o st os iso =
        freshDailyPair R sha' fw fd client o st os iso) := by
  refine ⟨seedInt_lt, ?_⟩
  intro R sha sha' fw fd client o st os iso h0 h1 h2
  have e0 : getDailyRng sha iso = getDailyRng sha' iso := by
    unfold getDailyRng seedInt getDailySeed
    rw [h0]
  have e1 : subRng sha iso "-1" = subRng sha' iso "-1" := by
    unfold subRng seedInt
    rw [h1]
  have e2 : subRng sha iso "-2" = subRng sha' iso "-2" := by
    unfold subRng seedInt
    rw [h2]
  unfold freshDailyPair
  rw [e0, e1, e2]

def sha0alt : String → String := fun s =>
  if s = "unrelated" then "ffff" else sha0 s

theorem C9_seed_derivation_witness :
    seedInt sha0 iso0 < 2 ^ 64 ∧
    freshDailyPair R0 sha0 fw0 fd0 client0 oracleGood emptyState 0 iso0 =
      freshDailyPair R0 sha0alt fw0 fd0 client0 oracleGood emptyState 0
        iso0 :=
  ⟨C9_seed_derivation.1 sha0 iso0,
   C9_seed_derivation.2 R0 sha0 sha0alt fw0 fd0 client0 oracleGood emptyState 0 iso0
     rfl rfl rfl⟩

/-- With an always-failing source, every attempt consumes two requests and
one draw of the provided generator, and the whole retry loop ends with the
generator advanced by exactly `fuel` draws. -/
theorem getRandomHalacha_allfail {R : Nat → Nat → Nat → Nat} {o : Oracle}
    (hfail : ∀ n url, o.resp n url = none) (vol : Volume) :
    ∀ (fuel os : Nat) (g : PyRandom),
      getRandomHalacha R o vol fuel os g =
        (none, os + 2 * fuel, ⟨g.seed, g.ctr + fuel⟩) := by
  intro fuel
  induction fuel with
  | zero => intro os g; simp [getRandomHalacha]
  | succ n ih =>
    intro os g
    unfold getRandomHalacha
    dsimp only
    rw [show getSeifCount o os vol (randint R g 1 vol.max_siman).1 =
        (none, os + 1) from by simp [getSeifCount, getText, hfail]]
    dsimp only
    rw [show fetchHalacha o (os + 1) vol (randint R g 1 vol.max_siman).1 1 =
        (none, os + 2) from by simp [fetchHalacha, getText, hfail]]
    dsimp only
    rw [ih (os + 2) (randint R g 1 vol.max_siman).2]
    simp only [randint, randbelowStep, Prod.mk.injEq, PyRandom.mk.injEq,
      true_and, and_true, eq_self_iff_true]
    omega

/-- C4 (amended): when every request fails, each of the 10 retries draws
one fresh locator from the slot's sub-seeded generator (its counter ends
at 10), but the two fallback units draw their locators from the
date-seeded *category* generator — the draws at counters 3 and 4, right
after the three shuffle draws — not from the sub-seeded generators. -/
theorem C4_retry_and_fallback_draws
    {R : Nat → Nat → Nat → Nat} {sha : String → String} {fw : String}
    {fd : DailyPair → String → List String} {client : Client} {o : Oracle}
    {st : SelState} {os : Nat} {iso : String} {vol1 vol2 : Volume}
    (hfail : ∀ n url, o.resp n url = none)
    (hmiss : loadCachedPair fw fd st iso = (.ok none, st))
    (h1 : getVolume client
      ((pyShuffle R "" VOLUME_NAMES (getDailyRng sha iso)).1.getD 0 "") =
      .ok (some vol1))
    (h2 : getVolume client
      ((pyShuffle R "" VOLUME_NAMES (getDailyRng sha iso)).1.getD 1 "") =
      .ok (some vol2))
    (hne : vol1.volume ≠ vol2.volume) :
    ∃ st',
      getDailyPair R sha fw fd client o st os iso =
        (.ok ⟨(getFallbackHalacha R vol1
                 ⟨seedInt sha (getDailySeed iso), 3⟩).1,
              (getFallbackHalacha R vol2
                 ⟨seedInt sha (getDailySeed iso), 4⟩).1,
              getDailySeed iso⟩, st', os + 40) ∧
      getRandomHalacha R o vol1 10 os (subRng sha iso "-1") =
        (none, os + 20, ⟨seedInt sha (iso ++ "-1"), 10⟩) ∧
      getRandomHalacha R o vol2 10 (os + 20) (subRng sha iso "-2") =
        (none, os + 40, ⟨seedInt sha (iso ++ "-2"), 10⟩) := by
  have r1eq : getRandomHalacha R o vol1 10 os (subRng sha iso "-1") =
      (none, os + 20, ⟨seedInt sha (iso ++ "-1"), 10⟩) :=
    getRandomHalacha_allfail hfail vol1 10 os _
  have r2eq : getRandomHalacha R o vol2 10 (os + 20) (subRng sha iso "-2") =
      (none, os + 40, ⟨seedInt sha (iso ++ "-2"), 10⟩) :=
    getRandomHalacha_allfail hfail vol2 10 (os + 20) _
  rw [show getDailyPair R sha fw fd client o st os iso =
      freshDailyPair R sha fw fd client o st os iso from by
    unfold getDailyPair; rw [hmiss]]
  rw [freshDailyPair_run h1 h2 hne]
  dsimp only
  rw [r1eq]
  dsimp only
  rw [r2eq]
  dsimp only
  rw [show (pyShuffle R "" VOLUME_NAMES (getDailyRng sha iso)).2 =
      (⟨seedInt sha (getDailySeed iso), 3⟩ : PyRandom) from
    congrArg Prod.snd (pyShuffle_names_expand R _)]
  exact ⟨_, rfl, rfl, rfl⟩

theorem C4_retry_and_fallback_draws_witness :
    ∃ st',
      getDailyPair R0 sha0 fw0 fd0 client0 oracleFail emptyState 0 iso0 =
        (.ok ⟨(getFallbackHalacha R0 vOC
                 ⟨seedInt sha0 (getDailySeed iso0), 3⟩).1,
              (getFallbackHalacha R0 vCM
                 ⟨seedInt sha0 (getDailySeed iso0), 4⟩).1,
              getDailySeed iso0⟩, st', 0 + 40) ∧
      getRandomHalacha R0 oracleFail vOC 10 0 (subRng sha0 iso0 "-1") =
        (none, 0 + 20, ⟨seedInt sha0 (iso0 ++ "-1"), 10⟩) ∧
      getRandomHalacha R0 oracleFail vCM 10 (0 + 20)
        (subRng sha0 iso0 "-2") =
        (none, 0 + 40, ⟨seedInt sha0 (iso0 ++ "-2"), 10⟩) :=
  C4_retry_and_fallback_draws (fun n url => rfl) rfl rfl rfl (by decide)

/-- C4 counterexample: on the all-fail run for `iso0`, the first slot's
fallback locator is 5 (a draw of the date-seeded category generator),
whereas one more draw from the slot's sub-seeded generator — the draw at
counter 10, after the 10 attempt draws — would give 13.  So the fallback
locator is not drawn from the sub-seeded generator. -/
theorem C4_counterexample :
    (getDailyPair R0 sha0 fw0 fd0 client0 oracleFail emptyState 0
      iso0).1 = .ok pairFail ∧
    pairFail.first.siman = 5 ∧
    pairFail.first.volume.max_siman = 697 ∧
    (randint R0 ⟨seedInt sha0 (iso0 ++ "-1"), 10⟩ 1 697).1 = 13 ∧
    (5 : Nat) ≠ 13 :=
  ⟨rfl, rfl, rfl, rfl, by decide⟩

/-- A successful `get_random_halacha_from_volume` call returns a halacha
of the requested volume (first-projection form). -/
theorem getRandomHalacha_fst_volume {R : Nat → Nat → Nat → Nat} {o : Oracle}
    {vol : Volume} {h : Halacha} {fuel os : Nat} {g : PyRandom}
    (hh : (getRandomHalacha R o vol fuel os g).1 = some h) :
    h.volume = vol := by
  apply @getRandomHalacha_volume R o vol h
    ((getRandomHalacha R o vol fuel os g).2.1)
    ((getRandomHalacha R o vol fuel os g).2.2) fuel os g
  rw [← hh]

/-- Inversion for a failed `DailyPair` construction. -/
theorem mkDailyPair_error {a b : Halacha} {d : String} {e : PyError}
    (h : mkDailyPair a b d = .error e) :
    e = .valueError ∧ a.volume.volume = b.volume.volume := by
  unfold mkDailyPair at h
  split at h
  · next heq => exact ⟨(Except.error.inj h).symm, heq⟩
  · exact nomatch h

/-- `get_volume` raises only when the catalog itself fails to load. -/
theorem getVolume_error {client : Client} {name : String} {e : PyError}
    (h : getVolume client name = .error e) : client.catalog = .error e := by
  unfold getVolume at h
  cases hc : client.catalog with
  | error e0 =>
    rw [hc] at h
    simp only [Except.map] at h
    rw [← Except.error.inj h]
  | ok vols =>
    rw [hc] at h
    simp only [Except.map] at h
    exact nomatch h

/-- `_load_cached_pair` lets an exception escape only when a fully
parseable durable record deserialises to two halachot with the same
volume name, in which case the escaping exception is the `ValueError` of
`DailyPair.__post_init__`. -/
theorem loadCachedPair_error {fw : String}
    {fd : DailyPair → String → List String} {st : SelState} {iso : String}
    {e : PyError} {st1 : SelState}
    (h : loadCachedPair fw fd st iso = (.error e, st1)) :
    e = .valueError ∧ alookup st.memory iso = none ∧ st1 = st ∧
    ∃ r f s ds, alookup st.files (cachePath iso) = some (.record r) ∧
      r.first.bind parseRawHalacha = some f ∧
      r.second.bind parseRawHalacha = some s ∧
      r.date_seed = some ds ∧ f.volume.volume = s.volume.volume := by
  unfold loadCachedPair at h
  split at h
  · exact nomatch h
  · next hmem =>
    split at h
    · exact nomatch h
    · exact nomatch h
    · next r hfile =>
      split at h
      · next f s ds hf hs hds =>
        split at h
        · next e0 hmk =>
          obtain ⟨he0, hvv⟩ := mkDailyPair_error hmk
          simp only [Prod.mk.injEq, Except.error.injEq] at h
          obtain ⟨he, hst⟩ := h
          exact ⟨he ▸ he0, hmem, hst.symm, r, f, s, ds, hfile, hf, hs, hds,
            hvv⟩
        · exact nomatch h
      · exact nomatch h

/-- The fresh-computation branch can only raise the catalog-load error or
the volume-lookup `RuntimeError`; fetch failures never raise. -/
theorem freshDailyPair_error {R : Nat → Nat → Nat → Nat}
    {sha : String → String} {fw : String}
    {fd : DailyPair → String → List String} {client : Client} {o : Oracle}
    {st : SelState} {os : Nat} {iso : String} {e : PyError}
    {st' : SelState} {os' : Nat} (hR : RandOK R)
    (h : freshDailyPair R sha fw fd client o st os iso =
      (.error e, st', os')) :
    client.catalog = .error e ∨
    (e = .runtimeError ∧
      ∃ name ∈ VOLUME_NAMES, getVolume client name = .ok none) := by
  obtain ⟨-, hne01, hm0, hm1⟩ :=
    pyShuffle_names_spec R hR (seedInt sha (getDailySeed iso))
  unfold freshDailyPair at h
  dsimp only at h
  split at h
  · next e0 hv =>
    simp only [Prod.mk.injEq, Except.error.injEq] at h
    exact .inl (h.1 ▸ getVolume_error hv)
  · next v1? hv1 =>
    split at h
    · next e0 hv =>
      simp only [Prod.mk.injEq, Except.error.injEq] at h
      exact .inl (h.1 ▸ getVolume_error hv)
    · next v2? hv2 =>
      split at h
      · next vol1 vol2 =>
        have hne : vol1.volume ≠ vol2.volume := by
          rw [getVolume_name hv1, getVolume_name hv2]
          exact hne01
        split at h
        · next e0 hmk =>
          exfalso
          obtain ⟨-, hvv⟩ := mkDailyPair_error hmk
          revert hvv
          cases hx1 : (getRandomHalacha R o vol1 10 os
              (subRng sha iso "-1")).1 with
          | none =>
            cases hx2 : (getRandomHalacha R o vol2 10
                (getRandomHalacha R o vol1 10 os (subRng sha iso "-1")).2.1
                (subRng sha iso "-2")).1 with
            | none => exact fun hvv => hne hvv
            | some hh2 =>
              intro hvv
              exact hne ((getRandomHalacha_fst_volume hx2) ▸ hvv)
          | some hh1 =>
            cases hx2 : (getRandomHalacha R o vol2 10
                (getRandomHalacha R o vol1 10 os (subRng sha iso "-1")).2.1
                (subRng sha iso "-2")).1 with
            | none =>
              intro hvv
              exact hne ((getRandomHalacha_fst_volume hx1) ▸ hvv)
            | some hh2 =>
              intro hvv
              exact hne ((getRandomHalacha_fst_volume hx1) ▸
                (getRandomHalacha_fst_volume hx2) ▸ hvv)
        · exact nomatch h
      · next hnotboth =>
        simp only [Prod.mk.injEq, Except.error.injEq] at h
        refine .inr ⟨h.1.symm, ?_⟩
        cases hv1x : v1? with
        | none =>
          exact ⟨_, hm0, hv1x ▸ hv1⟩
        | some vol1 =>
          cases hv2x : v2? with
          | none => exact ⟨_, hm1, hv2x ▸ hv2⟩
          | some vol2 => exact (hnotboth vol1 vol2 hv1x hv2x).elim

/-- A durable snapshot that parses to two same-volume halachot. -/
def poisonRec : RawRecord :=
  ⟨some iso0, some ["M"], some (rawOfHalacha halX),
   some (rawOfHalacha { halX with siman := 9 })⟩

/-- A session whose durable tier holds the poisoned snapshot. -/
def stPoison : SelState := ⟨[], [], [(cachePath iso0, .record poisonRec)]⟩

/-- C7 (amended): `get_daily_pair` raises only in three situations — the
catalog cannot be loaded, a volume-name lookup in the catalog returns no
volume, or a durable snapshot deserialises to a pair with equal volume
names (so the construction-time invariant check raises during cache
load).  In particular a content-fetch failure never raises. -/
theorem C7_failure_modes {R : Nat → Nat → Nat → Nat} {sha : String → String}
    {fw : String} {fd : DailyPair → String → List String} {client : Client}
    {o : Oracle} {st : SelState} {os : Nat} {iso : String} {e : PyError}
    {st' : SelState} {os' : Nat} (hR : RandOK R)
    (herr : getDailyPair R sha fw fd client o st os iso =
      (.error e, st', os')) :
    client.catalog = .error e ∨
    (e = .runtimeError ∧
      ∃ name ∈ VOLUME_NAMES, getVolume client name = .ok none) ∨
    (e = .valueError ∧ alookup st.memory iso = none ∧
      ∃ r f s ds, alookup st.files (cachePath iso) = some (.record r) ∧
        r.first.bind parseRawHalacha = some f ∧
        r.second.bind parseRawHalacha = some s ∧
        r.date_seed = some ds ∧ f.volume.volume = s.volume.volume) := by
  unfold getDailyPair at herr
  split at herr
  · next e0 st1 hld =>
    simp only [Prod.mk.injEq, Except.error.injEq] at herr
    obtain ⟨he, -, -⟩ := herr
    obtain ⟨he0, hmem, -, hr⟩ := loadCachedPair_error hld
    exact .inr (.inr ⟨he ▸ he0, hmem, hr⟩)
  · next p st1 hld => exact nomatch herr
  · next st1 hld =>
    rcases freshDailyPair_error hR herr with h | h
    · exact .inl h
    · exact .inr (.inl h)

theorem C7_failure_modes_witness :
    client0.catalog = .error .valueError ∨
    (PyError.valueError = .runtimeError ∧
      ∃ name ∈ VOLUME_NAMES, getVolume client0 name = .ok none) ∨
    (PyError.valueError = .valueError ∧
      alookup stPoison.memory iso0 = none ∧
      ∃ r f s ds,
        alookup stPoison.files (cachePath iso0) = some (.record r) ∧
        r.first.bind parseRawHalacha = some f ∧
        r.second.bind parseRawHalacha = some s ∧
        r.date_seed = some ds ∧ f.volume.volume = s.volume.volume) :=
  C7_failure_modes R0_ok (rfl :
    getDailyPair R0 sha0 fw0 fd0 client0 oracleGood stPoison 0 iso0 =
      (.error .valueError, stPoison, 0))

/-- C7 counterexample: with a fully loaded catalog, all four name lookups
succeeding and a source that answers every request, `get_daily_pair`
still raises (`ValueError`) when the durable tier holds a snapshot whose
two units share a volume name — a failure mode beyond the two the claim
allows. -/
theorem C7_counterexample :
    getDailyPair R0 sha0 fw0 fd0 client0 oracleGood stPoison 0 iso0 =
      (.error .valueError, stPoison, 0) ∧
    client0.catalog = .ok vols0 ∧
    getVolume client0 "Orach Chaim" = .ok (some vOC) ∧
    getVolume client0 "Yoreh De\x27ah" =
      .ok (some ⟨"Yoreh De\x27ah", "ב", "Shulchan Arukh, Yoreh Deah", 403⟩) ∧
    getVolume client0 "Even HaEzer" =
      .ok (some ⟨"Even HaEzer", "ג", "Shulchan Arukh, Even HaEzer", 178⟩) ∧
    getVolume client0 "Choshen Mishpat" = .ok (some vCM) ∧
    (∀ n url, oracleGood.resp n url = some goodText) :=
  ⟨rfl, rfl, rfl, rfl, rfl, rfl, fun _ _ => rfl⟩

end SAY
